import Mathlib

/-
Verification of the task-scheduler core (app/services/scheduler.py and
app/services/executor.py) against its specification.

The Python services are shallowly embedded: database rows become Lean
structures, the in-memory running set and the APScheduler job table become
lists inside an explicit scheduler state, and every external effect that can
vary at run time (the executor's outcome, store-commit failures, the wall
clock, the job table's next-run time) is passed in as an explicit
environment value.  Attribute assignments on a row object take effect on the
embedded state immediately (the in-memory object is the source of truth);
a failing commit is modelled as raising without undoing those assignments.
-/

namespace TaskSched

/-- Task types dispatched on by TaskExecutor.execute (schemas.TaskType). -/
inductive TaskType
  | http
  | shell
  | python
  | backup
deriving DecidableEq, Repr

/-- The dictionary a per-type strategy (_execute_http and friends) returns:
status, output, error_message, exit_code. -/
structure StratResult where
  status : String
  output : String
  errorMessage : Option String
  exitCode : Int
deriving DecidableEq, Repr

/-- The dictionary TaskExecutor.execute returns: the strategy fields plus
duration_ms and completed_at. -/
structure ExecResult where
  status : String
  output : String
  errorMessage : Option String
  exitCode : Int
  durationMs : Nat
  completedAt : Int
deriving DecidableEq, Repr

/-- What the network did for one HTTP task: either a response arrived
(with its status code, headers rendering and body text) or the requests
library raised a RequestException. -/
inductive HttpOutcome
  | response (statusCode : Nat) (headersStr : String) (bodyText : String)
  | requestException (msg : String)
deriving DecidableEq, Repr

/-- TaskExecutor._execute_http, lines 62-96: on a response, success iff
status code < 400, exit_code is the status code, the body excerpt is capped
at 2000 characters; on a RequestException, failed with exit_code -1. -/
def execute_http (o : HttpOutcome) : StratResult :=
  match o with
  | .response code headersStr bodyText =>
      { status := if code < 400 then "success" else "failed"
        output := "Status: " ++ toString code ++ "\nHeaders: " ++ headersStr
                    ++ "\nBody: " ++ bodyText.take 2000
        errorMessage := if code < 400 then none
                        else some ("HTTP " ++ toString code)
        exitCode := Int.ofNat code }
  | .requestException msg =>
      { status := "failed"
        output := ""
        errorMessage := some ("Request failed: " ++ msg)
        exitCode := -1 }

/-- One entry of the backup destination directory, as seen by os.listdir
together with its os.path.getctime value (seconds). -/
structure DirEntry where
  name : String
  ctime : Int
deriving DecidableEq, Repr

/-- TaskExecutor._cleanup_old_backups, lines 248-261: every entry of the
destination whose creation time is strictly below now - retention_days days
is removed (removal errors are swallowed; here removals succeed). -/
def cleanup_old_backups (now : Int) (retentionDays : Int)
    (entries : List DirEntry) : List DirEntry :=
  let cutoff := now - retentionDays * 86400
  entries.filter (fun e => !(decide (e.ctime < cutoff)))

/-- Whether one character list is an initial segment of another
(an executable startswith over the characters). -/
def list_starts_with : List Char → List Char → Bool
  | [], _ => true
  | _ :: _, [] => false
  | p :: ps, c :: cs => p == c && list_starts_with ps cs

/-- Whether a destination entry is a backup artifact, i.e. was produced by
_execute_backup, whose artifacts are always named backup_<timestamp> with an
optional archive extension. -/
def is_backup_artifact (name : String) : Bool :=
  list_starts_with "backup_".data name.data

/-- TaskExecutor._execute_backup, lines 182-246: fail fast if the source is
missing; create the artifact backup_<timestamp>(.tar.gz when compressing,
via tar whose exit code is given by the environment); on success run
_cleanup_old_backups over the destination and report success.  The whole run
is modelled at the single instant now, so the new artifact's ctime is now. -/
def execute_backup (source : String) (destination : String) (now : Int)
    (timestamp : String) (sourceExists : Bool) (compress : Bool)
    (retentionDays : Int) (tarReturncode : Int) (tarStderr : String)
    (entries : List DirEntry) : List DirEntry × StratResult :=
  if !sourceExists then
    (entries,
      { status := "failed", output := ""
        errorMessage := some ("Source path does not exist: " ++ source)
        exitCode := -1 })
  else
    let backupName :=
      if compress then "backup_" ++ timestamp ++ ".tar.gz"
      else "backup_" ++ timestamp
    if compress && !(decide (tarReturncode = 0)) then
      (entries,
        { status := "failed", output := ""
          errorMessage := some tarStderr
          exitCode := tarReturncode })
    else
      let entries1 := entries ++ [{ name := backupName, ctime := now }]
      let entries2 := cleanup_old_backups now retentionDays entries1
      (entries2,
        { status := "success"
          output := "Backup created: " ++ destination ++ "/" ++ backupName
          errorMessage := none
          exitCode := 0 })

/-- What the dispatched strategy did inside TaskExecutor.execute's try
block: returned its result dictionary, or raised (unsupported HTTP method,
subprocess-creation failure, unknown task type). -/
inductive StrategyOutcome
  | ok (r : StratResult)
  | raised (msg : String)
deriving DecidableEq, Repr

/-- The failure dictionary built by TaskExecutor.execute's except handler,
lines 50-58. -/
def failed_result (msg : String) (durationMs : Nat) (now : Int) : ExecResult :=
  { status := "failed", output := "", errorMessage := some msg
    exitCode := -1, durationMs := durationMs, completedAt := now }

/-- TaskExecutor.execute, lines 24-60.  The strategy's behaviour and the
two _log_execution calls' behaviour are environment inputs: logFailsTry
says whether the log write at line 45 raises (with message logMsgTry), and
logFailsExc whether the one in the except handler at line 59 raises (with
message logMsgExc).  A raise out of the whole method is the .error case. -/
def executor_execute (strat : StrategyOutcome) (durationMs : Nat) (now : Int)
    (logFailsTry : Bool) (logMsgTry : String)
    (logFailsExc : Bool) (logMsgExc : String) : Except String ExecResult :=
  match strat with
  | .ok r =>
      if logFailsTry then
        -- the log write raises; the outer except handler catches it,
        -- builds a fresh failed result and logs again
        if logFailsExc then .error logMsgExc
        else .ok (failed_result logMsgTry durationMs now)
      else
        .ok { status := r.status, output := r.output
              errorMessage := r.errorMessage, exitCode := r.exitCode
              durationMs := durationMs, completedAt := now }
  | .raised msg =>
      if logFailsExc then .error logMsgExc
      else .ok (failed_result msg durationMs now)

/-- A row of the tasks table (models.Task). -/
structure Task where
  id : Nat
  name : String
  taskType : TaskType
  cronExpression : String
  config : String
  isActive : Bool
  isRunning : Bool
  lastRunAt : Option Int
  nextRunAt : Option Int
  notifyOnSuccess : Bool
  notifyOnFailure : Bool
  runCount : Nat
  successCount : Nat
  failureCount : Nat
deriving DecidableEq, Repr

/-- A row of the task_logs table (models.TaskLog). -/
structure TaskLog where
  taskId : Nat
  taskName : String
  status : String
  startedAt : Int
  completedAt : Option Int
  durationMs : Option Nat
  output : Option String
  errorMessage : Option String
  exitCode : Option Int
  triggerType : String
deriving DecidableEq, Repr

/-- One APScheduler job as the service sees it: its string id
("task_<id>") and its next_run_time. -/
structure Job where
  id : String
  nextRunTime : Option Int
deriving DecidableEq, Repr

/-- The state a TaskSchedulerService instance acts on: the two database
tables, the in-memory running set self._running_tasks, and the APScheduler
job table. -/
structure SchedState where
  tasks : List Task
  logs : List TaskLog
  runningTasks : List Nat
  jobs : List Job
deriving DecidableEq, Repr

/-- db.query(Task).filter(Task.id == task_id).first(). -/
def findTask (s : SchedState) (tid : Nat) : Option Task :=
  s.tasks.find? (fun t => t.id == tid)

/-- Mutate (in place) the first row whose id matches, which is exactly the
object the query above returned. -/
def updateFirst (l : List Task) (tid : Nat) (f : Task → Task) : List Task :=
  match l with
  | [] => []
  | t :: ts => if t.id == tid then f t :: ts else t :: updateFirst ts tid f

/-- Python set.add on the running set. -/
def runningInsert (l : List Nat) (tid : Nat) : List Nat :=
  if tid ∈ l then l else tid :: l

/-- Python set.discard on the running set. -/
def runningDiscard (l : List Nat) (tid : Nat) : List Nat :=
  l.filter (fun x => x != tid)

/-- Everything that can vary during one execution run: the wall clock, the
executor's outcome (a result dictionary, or a raise when both log writes
inside it fail), whether each of the store commits along the path raises,
and the next_run_time the APScheduler job reports afterwards (none when the
job is gone).  The commits are numbered in path order: commit1 after the
run_count increment, commit2 after adding the log row, commit3 the final
one, commit4 the one inside _run_task's except handler. -/
structure RunEnv where
  now : Int
  execOutcome : Except String ExecResult
  commit1Fails : Bool
  commit2Fails : Bool
  commit3Fails : Bool
  commit4Fails : Bool
  jobNextRunTime : Option (Option Int)
deriving Repr

/-- The mutation at execution start: is_running=True, last_run_at=now,
run_count += 1 (scheduler.py lines 110-112 and 183-185). -/
def markStarted (now : Int) (u : Task) : Task :=
  { u with isRunning := true, lastRunAt := some now, runCount := u.runCount + 1 }

/-- The statistics update at completion (lines 142-145 and 211-214). -/
def bumpStats (status : String) (u : Task) : Task :=
  if status == "success" then { u with successCount := u.successCount + 1 }
  else { u with failureCount := u.failureCount + 1 }

/-- Reset of the running flag (lines 147, 166, 216). -/
def clearRunning (u : Task) : Task :=
  { u with isRunning := false }

/-- Refresh of next_run_at from the live job (lines 150-152). -/
def setNextRun (nrt : Option Int) (u : Task) : Task :=
  { u with nextRunAt := nrt }

/-- The freshly created log row, status running (lines 116-121, 188-193). -/
def initialLog (t : Task) (now : Int) (trig : String) : TaskLog :=
  { taskId := t.id, taskName := t.name, status := "running"
    startedAt := now, completedAt := none, durationMs := none
    output := none, errorMessage := none, exitCode := none
    triggerType := trig }

/-- The in-place mutation of the log row at completion (lines 134-139,
204-209). -/
def finishLog (log0 : TaskLog) (result : ExecResult) : TaskLog :=
  { log0 with status := result.status
              completedAt := some result.completedAt
              durationMs := some result.durationMs
              output := some result.output
              errorMessage := result.errorMessage
              exitCode := some result.exitCode }

/-- Apply a row mutation to the loaded task inside the state. -/
def withTask (s : SchedState) (tid : Nat) (f : Task → Task) : SchedState :=
  { s with tasks := updateFirst s.tasks tid f }

/-- Remove the id from the running set (the finally blocks). -/
def dropRunning (s : SchedState) (tid : Nat) : SchedState :=
  { s with runningTasks := runningDiscard s.runningTasks tid }

/-- The try block of TaskSchedulerService._run_task, lines 103-161, entered
with task_id already added to the running set.  Returns the state together
with the raised exception's message when a step raised. -/
def run_task_body (env : RunEnv) (tid : Nat) (s : SchedState) :
    SchedState × Option String :=
  match findTask s tid with
  | none => (s, none)
  | some t =>
    if !t.isActive then (s, none)
    else
      let s1 := withTask s tid (markStarted env.now)
      if env.commit1Fails then (s1, some "commit failed")
      else
        let log0 := initialLog t env.now "scheduled"
        let logIdx := s1.logs.length
        let s2 := { s1 with logs := s1.logs ++ [log0] }
        if env.commit2Fails then (s2, some "commit failed")
        else
          match env.execOutcome with
          | .error e => (s2, some e)
          | .ok result =>
            let s3 := { s2 with logs := s2.logs.set logIdx (finishLog log0 result) }
            let s4 := withTask s3 tid (bumpStats result.status)
            let s5 := withTask s4 tid clearRunning
            let s6 := match env.jobNextRunTime with
              | none => s5
              | some nrt => withTask s5 tid (setNextRun nrt)
            if env.commit3Fails then (s6, some "commit failed")
            else (s6, none)
            -- _send_notification only logs, so it has no state effect

/-- TaskSchedulerService._run_task, lines 94-169: the single-flight guard,
the try body, the except handler (reset is_running on the loaded task and
commit, swallowing the original exception) and the finally block (discard
from the running set).  The Bool says whether an exception escaped, which
happens exactly when the handler's own commit raises. -/
def run_task_internal (env : RunEnv) (tid : Nat) (s : SchedState) :
    SchedState × Bool :=
  if tid ∈ s.runningTasks then (s, false)
  else
    let s0 := { s with runningTasks := runningInsert s.runningTasks tid }
    let body := run_task_body env tid s0
    match body.2 with
    | none => (dropRunning body.1 tid, false)
    | some _ =>
        match findTask body.1 tid with
        | none => (dropRunning body.1 tid, false)
        | some _ =>
            let s2 := withTask body.1 tid clearRunning
            (dropRunning s2 tid, env.commit4Fails)

/-- The observable outcome of run_task_now: a normal return (None when the
task was missing, otherwise the log row), the ValueError for an
already-running task, or some other exception propagating out. -/
inductive RunNowOutcome
  | returned (log : Option TaskLog)
  | raisedAlreadyRunning
  | raisedOther (msg : String)
deriving DecidableEq, Repr

/-- TaskSchedulerService.run_task_now, lines 171-222: load the task (return
None when missing), raise ValueError when the id is in the running set,
otherwise run the same steps as the firing callback's body — but with no
is_active check, no next_run_at refresh, no notification, and no except
handler: only a finally block that discards the id from the running set. -/
def run_task_now (env : RunEnv) (tid : Nat) (triggerType : String)
    (s : SchedState) : SchedState × RunNowOutcome :=
  match findTask s tid with
  | none => (s, .returned none)
  | some t =>
    if tid ∈ s.runningTasks then (s, .raisedAlreadyRunning)
    else
      let s0 := { s with runningTasks := runningInsert s.runningTasks tid }
      let s1 := withTask s0 tid (markStarted env.now)
      if env.commit1Fails then (dropRunning s1 tid, .raisedOther "commit failed")
      else
        let log0 := initialLog t env.now triggerType
        let logIdx := s1.logs.length
        let s2 := { s1 with logs := s1.logs ++ [log0] }
        if env.commit2Fails then (dropRunning s2 tid, .raisedOther "commit failed")
        else
          match env.execOutcome with
          | .error e => (dropRunning s2 tid, .raisedOther e)
          | .ok result =>
            let log1 := finishLog log0 result
            let s3 := { s2 with logs := s2.logs.set logIdx log1 }
            let s4 := withTask s3 tid (bumpStats result.status)
            let s5 := withTask s4 tid clearRunning
            if env.commit3Fails then (dropRunning s5 tid, .raisedOther "commit failed")
            else (dropRunning s5 tid, .returned (some log1))

/-- Helper for py_split: walk the characters accumulating the current
(reversed) word, emitting it at each whitespace run. -/
def py_split_aux : List Char → List Char → List (List Char)
  | acc, [] => if acc.isEmpty then [] else [acc.reverse]
  | acc, c :: cs =>
      if c.isWhitespace then
        if acc.isEmpty then py_split_aux [] cs
        else acc.reverse :: py_split_aux [] cs
      else py_split_aux (c :: acc) cs

/-- Python's no-argument str.split: split on whitespace runs and drop the
empty pieces. -/
def py_split (s : String) : List String :=
  (py_split_aux [] s.data).map String.mk

/-- Split a character list at every separator, keeping empty pieces, as
str.split(sep) does for a one-character separator. -/
def split_on_char (sep : Char) : List Char → List (List Char)
  | [] => [[]]
  | c :: cs =>
      let rest := split_on_char sep cs
      if c == sep then [] :: rest
      else
        match rest with
        | g :: gs => (c :: g) :: gs
        | [] => [[c]]

/-- A nonempty all-digit character list. -/
def is_numeric_chars (cs : List Char) : Bool :=
  !cs.isEmpty && cs.all (fun c => c.isDigit)

/-- Modelled from the spec: one atom of a cron field as accepted by the
external CronTrigger dependency (APScheduler, not part of src), per the
spec's grammar — a wildcard, a step value of the shape */n, a plain number,
or a numeric range a-b. -/
def valid_cron_atom (cs : List Char) : Bool :=
  cs == ['*'] ||
  (match cs with
   | '*' :: '/' :: rest => is_numeric_chars rest
   | _ => false) ||
  is_numeric_chars cs ||
  (match split_on_char '-' cs with
   | [a, b] => is_numeric_chars a && is_numeric_chars b
   | _ => false)

/-- Modelled from the spec: a whole cron field, a comma list of atoms (an
empty piece is an invalid atom, so "" and trailing commas are rejected). -/
def valid_cron_field (s : String) : Bool :=
  (split_on_char ',' s.data).all valid_cron_atom

/-- Environment for add_task: the next_run_time of a freshly added job and
whether the commit persisting next_run_at raises. -/
structure AddEnv where
  jobNextRunTime : Option Int
  commitFails : Bool
deriving DecidableEq, Repr

/-- TaskSchedulerService.add_task, lines 32-80: remove any existing job for
this id; an inactive task gets no job; reject an expression without exactly
5 whitespace-separated fields with False; building the CronTrigger raises on
a field outside the grammar, caught by the blanket handler which returns
False; otherwise add the job, copy its next_run_time onto the task and
commit (a raising commit is also caught and turned into False). -/
def add_task (env : AddEnv) (s : SchedState) (task : Task) :
    SchedState × Bool :=
  let jobId := "task_" ++ toString task.id
  let s0 := { s with jobs := s.jobs.filter (fun j => j.id != jobId) }
  if !task.isActive then (s0, true)
  else
    let cronParts := py_split task.cronExpression
    if !(decide (cronParts.length = 5)) then (s0, false)
    else if !(cronParts.all valid_cron_field) then (s0, false)
    else
      let newJob : Job := { id := jobId, nextRunTime := env.jobNextRunTime }
      let s1 := { s0 with jobs := s0.jobs ++ [newJob] }
      let s2 := withTask s1 task.id (setNextRun env.jobNextRunTime)
      if env.commitFails then (s2, false) else (s2, true)

/-- TaskSchedulerService.remove_task, lines 82-87. -/
def remove_task (s : SchedState) (tid : Nat) : SchedState :=
  { s with jobs := s.jobs.filter (fun j => j.id != "task_" ++ toString tid) }

/-- TaskSchedulerService.update_task, lines 89-92: remove then add. -/
def update_task (env : AddEnv) (s : SchedState) (task : Task) :
    SchedState × Bool :=
  add_task env (remove_task s task.id) task

/-- Per-task invariant on the statistics counters. -/
def statsInv (t : Task) : Prop :=
  t.successCount + t.failureCount ≤ t.runCount

/-- The statistics invariant over the whole store. -/
def statsOk (s : SchedState) : Prop :=
  ∀ t ∈ s.tasks, statsInv t

/-- A concrete successful executor result, used to exercise the run paths
on concrete states. -/
def okResult : ExecResult :=
  { status := "success", output := "ok", errorMessage := none
    exitCode := 0, durationMs := 5, completedAt := 100 }

/-- A concrete active shell task. -/
def demoTask : Task :=
  { id := 1, name := "t", taskType := .shell, cronExpression := "* * * * *"
    config := "{}", isActive := true, isRunning := false, lastRunAt := none
    nextRunAt := none, notifyOnSuccess := false, notifyOnFailure := true
    runCount := 0, successCount := 0, failureCount := 0 }

/-- The same task deactivated. -/
def inactiveTask : Task :=
  { demoTask with isActive := false }

/-- A store holding just the active demo task, nothing running. -/
def demoState : SchedState :=
  { tasks := [demoTask], logs := [], runningTasks := [], jobs := [] }

/-- A store holding just the deactivated task. -/
def inactiveState : SchedState :=
  { tasks := [inactiveTask], logs := [], runningTasks := [], jobs := [] }

/-- The demo task with its id in the running set. -/
def runningState : SchedState :=
  { tasks := [demoTask], logs := [], runningTasks := [1], jobs := [] }

/-- An empty store. -/
def emptyState : SchedState :=
  { tasks := [], logs := [], runningTasks := [], jobs := [] }

/-- An environment where every step succeeds. -/
def okEnv : RunEnv :=
  { now := 50, execOutcome := .ok okResult, commit1Fails := false
    commit2Fails := false, commit3Fails := false, commit4Fails := false
    jobNextRunTime := some (some 110) }

/-- An environment where the commit persisting the new log row raises. -/
def failCommit2Env : RunEnv :=
  { now := 50, execOutcome := .ok okResult, commit1Fails := false
    commit2Fails := true, commit3Fails := false, commit4Fails := false
    jobNextRunTime := some (some 110) }

/-- A concrete successful strategy dictionary. -/
def okStrat : StratResult :=
  { status := "success", output := "done", errorMessage := none, exitCode := 0 }

/-- A stale non-backup file sitting in the backup destination. -/
def staleEntry : DirEntry :=
  { name := "notes.txt", ctime := 0 }

/-- An active task carrying a 4-field cron expression. -/
def badCronTask : Task :=
  { demoTask with id := 2, cronExpression := "* * * *" }

/-- A store where the bad-cron task already has a registered job. -/
def oneJobState : SchedState :=
  { tasks := [badCronTask], logs := [], runningTasks := []
    jobs := [{ id := "task_2", nextRunTime := none }] }

/-- The artifact a backup run at instant now creates in the destination. -/
def new_artifact (timestamp : String) (compress : Bool) (now : Int) : DirEntry :=
  { name := if compress then "backup_" ++ timestamp ++ ".tar.gz"
            else "backup_" ++ timestamp
    ctime := now }

/-- C7: for every HTTP execution that receives a response, the result has
status SUCCESS exactly when the response status code is below 400 and its
exit code is the HTTP status code; for every network-level failure the
result is FAILED with exit code -1 and a request-failure error message. -/
theorem c7_http_result_semantics :
    (∀ code headersStr bodyText,
        ((execute_http (.response code headersStr bodyText)).status = "success"
            ↔ code < 400) ∧
        (execute_http (.response code headersStr bodyText)).exitCode
            = Int.ofNat code) ∧
    (∀ msg,
        (execute_http (.requestException msg)).status = "failed" ∧
        (execute_http (.requestException msg)).exitCode = -1 ∧
        (execute_http (.requestException msg)).errorMessage
            = some ("Request failed: " ++ msg)) := by
  constructor
  · intro code headersStr bodyText
    refine ⟨?_, rfl⟩
    by_cases hc : code < 400
    · simp [execute_http, hc]
    · simp only [execute_http, if_neg hc]
      constructor
      · intro h
        exact absurd h (by decide)
      · intro h
        exact absurd h hc
  · intro msg
    exact ⟨rfl, rfl, rfl⟩

/-- C3 is false as stated: when the strategy succeeds but the per-task log
write raises, TaskExecutor.execute catches the log error and returns a
FAILED result in place of the strategy's successful one; and when the log
write in the except handler raises as well, execute raises instead of
returning. -/
theorem c3_counterexample :
    executor_execute (.ok okStrat) 5 100 true "log write failed" false ""
        = .ok (failed_result "log write failed" 5 100) ∧
    (failed_result "log write failed" 5 100).status ≠ okStrat.status ∧
    executor_execute (.ok okStrat) 5 100 true "log write failed" true "disk full"
        = .error "disk full" :=
  ⟨rfl, by decide, rfl⟩

/-- C3 (amended): TaskExecutor.execute returns the strategy's result
(extended with duration and completion time) whenever the in-try log write
succeeds; it returns some result object whenever the except-handler log
write succeeds; and a failing in-try log write is caught and turned into a
returned FAILED result carrying the log error. -/
theorem c3_amended_execute (strat : StrategyOutcome) (r : StratResult)
    (durationMs : Nat) (now : Int) (f1 f2 : Bool) (m1 m2 : String) :
    (executor_execute (.ok r) durationMs now false m1 f2 m2
        = .ok { status := r.status, output := r.output
                errorMessage := r.errorMessage, exitCode := r.exitCode
                durationMs := durationMs, completedAt := now }) ∧
    (∃ res, executor_execute strat durationMs now f1 m1 false m2 = .ok res) ∧
    (executor_execute (.ok r) durationMs now true m1 false m2
        = .ok (failed_result m1 durationMs now)) := by
  refine ⟨rfl, ?_, rfl⟩
  cases strat with
  | ok r' =>
      cases f1 with
      | false => exact ⟨_, rfl⟩
      | true => exact ⟨_, rfl⟩
  | raised msg => exact ⟨_, rfl⟩

/-- C1: a scheduled firing for a task id already in the running set is a
complete no-op — the state (tasks, logs, counters, running set) is returned
unchanged and no exception escapes. -/
theorem c1_single_flight_noop (env : RunEnv) (tid : Nat) (s : SchedState)
    (h : tid ∈ s.runningTasks) :
    run_task_internal env tid s = (s, false) := by
  simp [run_task_internal, h]

/-- Witness for C1 on a concrete running state. -/
theorem c1_single_flight_noop_witness :
    1 ∈ runningState.runningTasks ∧
    run_task_internal okEnv 1 runningState = (runningState, false) :=
  ⟨by decide, c1_single_flight_noop okEnv 1 runningState (by decide)⟩

/-- C2: run_task_now on an existing task whose id is in the running set
raises the already-running ValueError and leaves the whole state — task
rows, logs, running set — untouched. -/
theorem c2_already_running (env : RunEnv) (tid : Nat) (trig : String)
    (s : SchedState) (t : Task) (hfind : findTask s tid = some t)
    (hrun : tid ∈ s.runningTasks) :
    run_task_now env tid trig s = (s, .raisedAlreadyRunning) := by
  simp [run_task_now, hfind, hrun]

/-- Witness for C2 on a concrete running state. -/
theorem c2_already_running_witness :
    findTask runningState 1 = some demoTask ∧
    1 ∈ runningState.runningTasks ∧
    run_task_now okEnv 1 "manual" runningState
      = (runningState, .raisedAlreadyRunning) :=
  ⟨by decide, by decide,
   c2_already_running okEnv 1 "manual" runningState demoTask
     (by decide) (by decide)⟩

/-- C10: run_task_now on an id with no matching task returns None and
changes nothing: no raise, no running-set insertion, no log row, no store
mutation. -/
theorem c10_missing_task (env : RunEnv) (tid : Nat) (trig : String)
    (s : SchedState) (hfind : findTask s tid = none) :
    run_task_now env tid trig s = (s, .returned none) := by
  simp [run_task_now, hfind]

/-- Witness for C10 on an empty store. -/
theorem c10_missing_task_witness :
    findTask emptyState 42 = none ∧
    run_task_now okEnv 42 "manual" emptyState = (emptyState, .returned none) :=
  ⟨rfl, c10_missing_task okEnv 42 "manual" emptyState rfl⟩

/-- C9 is false as stated: run_task_now does not replicate the firing
callback's is_active check.  On a deactivated task the firing callback
aborts quietly, but run_task_now executes it anyway: it creates a log row,
increments run_count, and returns the log instead of aborting. -/
theorem c9_counterexample :
    inactiveTask.isActive = false ∧
    run_task_internal okEnv 1 inactiveState = (inactiveState, false) ∧
    (run_task_now okEnv 1 "manual" inactiveState).1.logs.length = 1 ∧
    (findTask (run_task_now okEnv 1 "manual" inactiveState).1 1).map
        Task.runCount = some 1 ∧
    (run_task_now okEnv 1 "manual" inactiveState).2
        ≠ RunNowOutcome.returned none := by
  refine ⟨rfl, by decide, by decide, by decide, by decide⟩

/-- C6: registering an active task whose cron expression does not split
into exactly 5 whitespace-separated fields, or one of whose fields falls
outside the cron grammar, makes add_task report failure as the boolean
False (no crash) and leaves no job registered for that task id. -/
theorem c6_invalid_cron_no_job (env : AddEnv) (s : SchedState) (task : Task)
    (hact : task.isActive = true)
    (hbad : ¬ ((py_split task.cronExpression).length = 5 ∧
               (py_split task.cronExpression).all valid_cron_field = true)) :
    (add_task env s task).2 = false ∧
    ∀ j ∈ (add_task env s task).1.jobs,
      ¬ j.id = "task_" ++ toString task.id := by
  by_cases hlen : (py_split task.cronExpression).length = 5
  · have hall : (py_split task.cronExpression).all valid_cron_field = false := by
      cases h : (py_split task.cronExpression).all valid_cron_field
      · rfl
      · exact absurd ⟨hlen, h⟩ hbad
    refine ⟨by simp [add_task, hact, hlen, hall], ?_⟩
    intro j hj
    simp [add_task, hact, hlen, hall, List.mem_filter] at hj
    exact hj.2
  · refine ⟨by simp [add_task, hact, hlen], ?_⟩
    intro j hj
    simp [add_task, hact, hlen, List.mem_filter] at hj
    exact hj.2

/-- Witness for C6: a 4-field expression on a task that had a stale job. -/
theorem c6_invalid_cron_no_job_witness :
    badCronTask.isActive = true ∧
    (add_task { jobNextRunTime := none, commitFails := false }
        oneJobState badCronTask).2 = false ∧
    ∀ j ∈ (add_task { jobNextRunTime := none, commitFails := false }
        oneJobState badCronTask).1.jobs,
      ¬ j.id = "task_" ++ toString badCronTask.id :=
  ⟨rfl,
   (c6_invalid_cron_no_job _ oneJobState badCronTask rfl (by decide)).1,
   (c6_invalid_cron_no_job _ oneJobState badCronTask rfl (by decide)).2⟩

/-- C8 is false as stated: the cleanup pass is not limited to prior backup
artifacts — it deletes every destination entry older than the cutoff, here
a stale unrelated file notes.txt, even though the run itself succeeds. -/
theorem c8_counterexample :
    (execute_backup "/data/app" "/backups" 10000000 "20260101_000000"
        true true 7 0 "" [staleEntry]).2.status = "success" ∧
    is_backup_artifact staleEntry.name = false ∧
    staleEntry ∉ (execute_backup "/data/app" "/backups" 10000000
        "20260101_000000" true true 7 0 "" [staleEntry]).1 := by
  refine ⟨rfl, by decide, by decide⟩

/-- C8 (amended): a successful backup run's cleanup pass removes exactly
the destination entries — whether backup artifacts or not — whose creation
time is strictly older than now minus retention_days days; the artifact
created by that same run always survives the pass, and no other entry
appears. -/
theorem c8_amended_retention (source destination : String) (now : Int)
    (timestamp : String) (compress : Bool) (retentionDays : Int)
    (tarReturncode : Int) (tarStderr : String) (entries : List DirEntry)
    (hR : 0 ≤ retentionDays)
    (htar : compress = true → tarReturncode = 0) :
    (execute_backup source destination now timestamp true compress
        retentionDays tarReturncode tarStderr entries).2.status = "success" ∧
    new_artifact timestamp compress now
      ∈ (execute_backup source destination now timestamp true compress
          retentionDays tarReturncode tarStderr entries).1 ∧
    (∀ e ∈ entries,
      e ∈ (execute_backup source destination now timestamp true compress
            retentionDays tarReturncode tarStderr entries).1
        ↔ ¬ e.ctime < now - retentionDays * 86400) ∧
    (∀ e ∈ (execute_backup source destination now timestamp true compress
          retentionDays tarReturncode tarStderr entries).1,
      e = new_artifact timestamp compress now ∨ e ∈ entries) := by
  have hcut : ¬ now < now - retentionDays * 86400 := by omega
  have hbranch : execute_backup source destination now timestamp true compress
      retentionDays tarReturncode tarStderr entries
      = (cleanup_old_backups now retentionDays
           (entries ++ [new_artifact timestamp compress now]),
         { status := "success"
           output := "Backup created: " ++ destination ++ "/"
                       ++ (new_artifact timestamp compress now).name
           errorMessage := none
           exitCode := 0 }) := by
    cases compress with
    | true =>
        have h0 : tarReturncode = 0 := htar rfl
        simp [execute_backup, h0, new_artifact]
    | false =>
        simp [execute_backup, new_artifact]
  rw [hbranch]
  refine ⟨rfl, ?_, ?_, ?_⟩
  · simp [cleanup_old_backups, List.mem_filter, hcut, new_artifact]
  · intro e he
    simp [cleanup_old_backups, List.mem_filter, List.mem_append]
    tauto
  · intro e he
    simp [cleanup_old_backups, List.mem_filter, List.mem_append] at he
    tauto

/-- Witness for C8 (amended) on a destination holding one stale artifact. -/
theorem c8_amended_retention_witness :
    0 ≤ (7 : Int) ∧
    (execute_backup "/data/app" "/backups" 10000000 "T" true true 7 0 ""
        [{ name := "backup_old.tar.gz", ctime := 0 }]).2.status = "success" ∧
    new_artifact "T" true 10000000
      ∈ (execute_backup "/data/app" "/backups" 10000000 "T" true true 7 0 ""
          [{ name := "backup_old.tar.gz", ctime := 0 }]).1 :=
  ⟨by decide,
   (c8_amended_retention "/data/app" "/backups" 10000000 "T" true 7 0 ""
      [{ name := "backup_old.tar.gz", ctime := 0 }] (by decide) (fun _ => rfl)).1,
   (c8_amended_retention "/data/app" "/backups" 10000000 "T" true 7 0 ""
      [{ name := "backup_old.tar.gz", ctime := 0 }] (by decide) (fun _ => rfl)).2.1⟩

/-- C4 is false as stated: run_task_now has only a finally block, no except
handler, so when the commit persisting the new log row raises the id is
removed from the running set but the call propagates the exception with the
task left at is_running=true. -/
theorem c4_counterexample :
    (run_task_now failCommit2Env 1 "manual" demoState).2
        = RunNowOutcome.raisedOther "commit failed" ∧
    (findTask (run_task_now failCommit2Env 1 "manual" demoState).1 1).map
        Task.isRunning = some true ∧
    1 ∉ (run_task_now failCommit2Env 1 "manual" demoState).1.runningTasks := by
  refine ⟨by decide, by decide, by decide⟩

/-- The row mutation at execution start preserves the row id. -/
@[simp] theorem markStarted_id (now : Int) (u : Task) :
    (markStarted now u).id = u.id := rfl

/-- The statistics update preserves the row id. -/
@[simp] theorem bumpStats_id (st : String) (u : Task) :
    (bumpStats st u).id = u.id := by
  unfold bumpStats; split <;> rfl

/-- Clearing the running flag preserves the row id. -/
@[simp] theorem clearRunning_id (u : Task) :
    (clearRunning u).id = u.id := rfl

/-- Refreshing next_run_at preserves the row id. -/
@[simp] theorem setNextRun_id (nrt : Option Int) (u : Task) :
    (setNextRun nrt u).id = u.id := rfl

/-- A pointwise property survives updateFirst when the rewrite preserves
it. -/
theorem updateFirst_forall {P : Task → Prop} (l : List Task) (tid : Nat)
    (f : Task → Task) (hl : ∀ t ∈ l, P t) (hf : ∀ u, P u → P (f u)) :
    ∀ t ∈ updateFirst l tid f, P t := by
  induction l with
  | nil => intro t ht; cases ht
  | cons a as ih =>
      intro t ht
      cases hc : (a.id == tid) with
      | true =>
          simp only [updateFirst, hc, if_true] at ht
          rcases List.mem_cons.mp ht with h1 | h1
          · exact h1 ▸ hf a (hl a (List.mem_cons_self a as))
          · exact hl t (List.mem_cons_of_mem a h1)
      | false =>
          simp only [updateFirst, hc, Bool.false_eq_true, if_false] at ht
          rcases List.mem_cons.mp ht with h1 | h1
          · exact h1 ▸ hl a (List.mem_cons_self a as)
          · exact ih (fun u hu => hl u (List.mem_cons_of_mem a hu)) t h1

/-- Two successive updateFirst rewrites of the same id compose, provided
the first one preserves the id. -/
theorem updateFirst_comp (l : List Task) (tid : Nat) (f g : Task → Task)
    (hid : ∀ u, (f u).id = u.id) :
    updateFirst (updateFirst l tid f) tid g
      = updateFirst l tid (fun u => g (f u)) := by
  induction l with
  | nil => rfl
  | cons a as ih =>
      cases hc : (a.id == tid) with
      | true => simp [updateFirst, hc, hid]
      | false => simp [updateFirst, hc, ih]

/-- Looking up the rewritten id after updateFirst returns the rewritten
row, provided the rewrite preserves the id. -/
theorem find_updateFirst (l : List Task) (tid : Nat) (f : Task → Task)
    (hid : ∀ u, (f u).id = u.id) :
    (updateFirst l tid f).find? (fun t => t.id == tid)
      = (l.find? (fun t => t.id == tid)).map f := by
  induction l with
  | nil => rfl
  | cons a as ih =>
      cases hc : (a.id == tid) with
      | true => simp [updateFirst, hc, List.find?, hid]
      | false => simp [updateFirst, hc, List.find?, ih]

/-- findTask reads only the tasks component. -/
@[simp] theorem findTask_mk (ts : List Task) (lg : List TaskLog)
    (rs : List Nat) (js : List Job) (tid : Nat) :
    findTask ⟨ts, lg, rs, js⟩ tid = ts.find? (fun t => t.id == tid) := rfl

/-- The discarded id is gone from the running set. -/
theorem not_mem_runningDiscard (l : List Nat) (tid : Nat) :
    tid ∉ runningDiscard l tid := by
  simp [runningDiscard, List.mem_filter]

/-- Field effects of markStarted. -/
@[simp] theorem markStarted_runCount (now : Int) (u : Task) :
    (markStarted now u).runCount = u.runCount + 1 := rfl

@[simp] theorem markStarted_successCount (now : Int) (u : Task) :
    (markStarted now u).successCount = u.successCount := rfl

@[simp] theorem markStarted_failureCount (now : Int) (u : Task) :
    (markStarted now u).failureCount = u.failureCount := rfl

@[simp] theorem markStarted_isRunning (now : Int) (u : Task) :
    (markStarted now u).isRunning = true := rfl

/-- Field effects of clearRunning. -/
@[simp] theorem clearRunning_isRunning (u : Task) :
    (clearRunning u).isRunning = false := rfl

@[simp] theorem clearRunning_runCount (u : Task) :
    (clearRunning u).runCount = u.runCount := rfl

@[simp] theorem clearRunning_successCount (u : Task) :
    (clearRunning u).successCount = u.successCount := rfl

@[simp] theorem clearRunning_failureCount (u : Task) :
    (clearRunning u).failureCount = u.failureCount := rfl

/-- Field effects of setNextRun. -/
@[simp] theorem setNextRun_isRunning (nrt : Option Int) (u : Task) :
    (setNextRun nrt u).isRunning = u.isRunning := rfl

@[simp] theorem setNextRun_runCount (nrt : Option Int) (u : Task) :
    (setNextRun nrt u).runCount = u.runCount := rfl

@[simp] theorem setNextRun_successCount (nrt : Option Int) (u : Task) :
    (setNextRun nrt u).successCount = u.successCount := rfl

@[simp] theorem setNextRun_failureCount (nrt : Option Int) (u : Task) :
    (setNextRun nrt u).failureCount = u.failureCount := rfl

/-- Field effects of bumpStats: run count and running flag untouched, and
exactly one of the two outcome counters goes up by one. -/
@[simp] theorem bumpStats_runCount (st : String) (u : Task) :
    (bumpStats st u).runCount = u.runCount := by
  unfold bumpStats; split <;> rfl

@[simp] theorem bumpStats_isRunning (st : String) (u : Task) :
    (bumpStats st u).isRunning = u.isRunning := by
  unfold bumpStats; split <;> rfl

@[simp] theorem bumpStats_sum (st : String) (u : Task) :
    (bumpStats st u).successCount + (bumpStats st u).failureCount
      = u.successCount + u.failureCount + 1 := by
  unfold bumpStats; split <;> simp <;> omega

/-- Whatever the environment does, one firing either leaves the task table
untouched or rewrites exactly the fired row with a mutation F that keeps
its id, ends with is_running=false, raises run_count by exactly one, and
raises the outcome-counter sum by at most one. -/
theorem run_task_internal_tasks_shape (env : RunEnv) (tid : Nat)
    (s : SchedState) (hrun : tid ∉ s.runningTasks) :
    (run_task_internal env tid s).1.tasks = s.tasks ∨
    ∃ F : Task → Task,
      (run_task_internal env tid s).1.tasks = updateFirst s.tasks tid F ∧
      ∀ u, (F u).id = u.id ∧ (F u).isRunning = false ∧
        (F u).runCount = u.runCount + 1 ∧
        u.successCount + u.failureCount
          ≤ (F u).successCount + (F u).failureCount ∧
        (F u).successCount + (F u).failureCount
          ≤ u.successCount + u.failureCount + 1 := by
  obtain ⟨now, exec, c1, c2, c3, c4, jnr⟩ := env
  obtain ⟨ts, lg, rs, js⟩ := s
  simp only [findTask_mk] at hrun ⊢
  rcases hf : ts.find? (fun t => t.id == tid) with _ | t
  · left
    simp [run_task_internal, run_task_body, hrun, hf, dropRunning]
  · cases ht : t.isActive with
    | false =>
        left
        simp [run_task_internal, run_task_body, hrun, hf, ht, dropRunning]
    | true =>
        right
        cases c1 with
        | true =>
            refine ⟨fun u => clearRunning (markStarted now u), ?_, ?_⟩
            · simp [run_task_internal, run_task_body, hrun, hf, ht, withTask,
                dropRunning, find_updateFirst, updateFirst_comp]
            · intro u
              refine ⟨by simp, by simp, by simp, by simp, by simp⟩
        | false =>
            cases c2 with
            | true =>
                refine ⟨fun u => clearRunning (markStarted now u), ?_, ?_⟩
                · simp [run_task_internal, run_task_body, hrun, hf, ht,
                    withTask, dropRunning, find_updateFirst, updateFirst_comp]
                · intro u
                  refine ⟨by simp, by simp, by simp, by simp, by simp⟩
            | false =>
                rcases exec with e | r
                · refine ⟨fun u => clearRunning (markStarted now u), ?_, ?_⟩
                  · simp [run_task_internal, run_task_body, hrun, hf, ht,
                      withTask, dropRunning, find_updateFirst, updateFirst_comp]
                  · intro u
                    refine ⟨by simp, by simp, by simp, by simp, by simp⟩
                · rcases jnr with _ | nrt
                  · cases c3 with
                    | false =>
                        refine ⟨fun u => clearRunning
                          (bumpStats r.status (markStarted now u)), ?_, ?_⟩
                        · simp [run_task_internal, run_task_body, hrun, hf,
                            ht, withTask, dropRunning, find_updateFirst,
                            updateFirst_comp]
                        · intro u
                          refine ⟨by simp, by simp, by simp,
                            by simp [bumpStats_sum], by simp [bumpStats_sum]⟩
                    | true =>
                        refine ⟨fun u => clearRunning (clearRunning
                          (bumpStats r.status (markStarted now u))), ?_, ?_⟩
                        · simp [run_task_internal, run_task_body, hrun, hf,
                            ht, withTask, dropRunning, find_updateFirst,
                            updateFirst_comp]
                        · intro u
                          refine ⟨by simp, by simp, by simp,
                            by simp [bumpStats_sum], by simp [bumpStats_sum]⟩
                  · cases c3 with
                    | false =>
                        refine ⟨fun u => setNextRun nrt (clearRunning
                          (bumpStats r.status (markStarted now u))), ?_, ?_⟩
                        · simp [run_task_internal, run_task_body, hrun, hf,
                            ht, withTask, dropRunning, find_updateFirst,
                            updateFirst_comp]
                        · intro u
                          refine ⟨by simp, by simp, by simp,
                            by simp [bumpStats_sum], by simp [bumpStats_sum]⟩
                    | true =>
                        refine ⟨fun u => clearRunning (setNextRun nrt
                          (clearRunning (bumpStats r.status
                            (markStarted now u)))), ?_, ?_⟩
                        · simp [run_task_internal, run_task_body, hrun, hf,
                            ht, withTask, dropRunning, find_updateFirst,
                            updateFirst_comp]
                        · intro u
                          refine ⟨by simp, by simp, by simp,
                            by simp [bumpStats_sum], by simp [bumpStats_sum]⟩

/-- Whatever the environment does, one manual trigger either leaves the
task table untouched or rewrites exactly the triggered row with a mutation
that keeps its id, raises run_count by exactly one, and raises the
outcome-counter sum by at most one.  (Unlike the firing callback, the
mutation need not end with is_running=false: the raising branches leave the
flag set.) -/
theorem run_task_now_tasks_shape (env : RunEnv) (tid : Nat) (trig : String)
    (s : SchedState) (hrun : tid ∉ s.runningTasks) :
    (run_task_now env tid trig s).1.tasks = s.tasks ∨
    ∃ F : Task → Task,
      (run_task_now env tid trig s).1.tasks = updateFirst s.tasks tid F ∧
      ∀ u, (F u).id = u.id ∧ (F u).runCount = u.runCount + 1 ∧
        u.successCount + u.failureCount
          ≤ (F u).successCount + (F u).failureCount ∧
        (F u).successCount + (F u).failureCount
          ≤ u.successCount + u.failureCount + 1 := by
  obtain ⟨now, exec, c1, c2, c3, c4, jnr⟩ := env
  obtain ⟨ts, lg, rs, js⟩ := s
  simp only [findTask_mk] at hrun ⊢
  rcases hf : ts.find? (fun t => t.id == tid) with _ | t
  · left
    simp [run_task_now, hf]
  · right
    cases c1 with
    | true =>
        refine ⟨markStarted now, ?_, ?_⟩
        · simp [run_task_now, hrun, hf, withTask, dropRunning]
        · intro u
          refine ⟨by simp, by simp, by simp, by simp⟩
    | false =>
        cases c2 with
        | true =>
            refine ⟨markStarted now, ?_, ?_⟩
            · simp [run_task_now, hrun, hf, withTask, dropRunning]
            · intro u
              refine ⟨by simp, by simp, by simp, by simp⟩
        | false =>
            rcases exec with e | r
            · refine ⟨markStarted now, ?_, ?_⟩
              · simp [run_task_now, hrun, hf, withTask, dropRunning]
              · intro u
                refine ⟨by simp, by simp, by simp, by simp⟩
            · refine ⟨fun u => clearRunning (bumpStats r.status
                (markStarted now u)), ?_, ?_⟩
              · cases c3 <;>
                  simp [run_task_now, hrun, hf, withTask, dropRunning,
                    updateFirst_comp]
              · intro u
                refine ⟨by simp, by simp, by simp [bumpStats_sum],
                  by simp [bumpStats_sum]⟩

/-- The firing callback on a clean full run: the fired row ends with
run_count up by exactly one and the outcome-counter sum up by exactly
one. -/
theorem run_task_internal_completed (env : RunEnv) (tid : Nat)
    (s : SchedState) (t : Task) (hrun : tid ∉ s.runningTasks)
    (hf : findTask s tid = some t) (ht : t.isActive = true)
    (hc1 : env.commit1Fails = false) (hc2 : env.commit2Fails = false)
    (hc3 : env.commit3Fails = false) (r : ExecResult)
    (hex : env.execOutcome = .ok r) :
    (findTask (run_task_internal env tid s).1 tid).map
        (fun u => (u.runCount, u.successCount + u.failureCount))
      = some (t.runCount + 1, t.successCount + t.failureCount + 1) := by
  obtain ⟨now, exec, c1, c2, c3, c4, jnr⟩ := env
  obtain ⟨ts, lg, rs, js⟩ := s
  simp only at hc1 hc2 hc3 hex
  subst hc1; subst hc2; subst hc3; subst hex
  simp only [findTask_mk] at hf ⊢
  rcases jnr with _ | nrt <;>
    simp [run_task_internal, run_task_body, hrun, hf, ht, withTask,
      dropRunning, updateFirst_comp, find_updateFirst, bumpStats_sum]

/-- The manual trigger on a clean full run: the triggered row ends with
run_count up by exactly one and the outcome-counter sum up by exactly
one. -/
theorem run_task_now_completed (env : RunEnv) (tid : Nat) (trig : String)
    (s : SchedState) (t : Task) (hrun : tid ∉ s.runningTasks)
    (hf : findTask s tid = some t)
    (hc1 : env.commit1Fails = false) (hc2 : env.commit2Fails = false)
    (hc3 : env.commit3Fails = false) (r : ExecResult)
    (hex : env.execOutcome = .ok r) :
    (findTask (run_task_now env tid trig s).1 tid).map
        (fun u => (u.runCount, u.successCount + u.failureCount))
      = some (t.runCount + 1, t.successCount + t.failureCount + 1) := by
  obtain ⟨now, exec, c1, c2, c3, c4, jnr⟩ := env
  obtain ⟨ts, lg, rs, js⟩ := s
  simp only at hc1 hc2 hc3 hex
  subst hc1; subst hc2; subst hc3; subst hex
  simp only [findTask_mk] at hf ⊢
  simp [run_task_now, hrun, hf, withTask, dropRunning, updateFirst_comp,
    find_updateFirst, bumpStats_sum]

/-- Once the first commit went through, the manual trigger has appended
exactly one log row, whatever happens afterwards. -/
theorem run_task_now_logs_length (env : RunEnv) (tid : Nat) (trig : String)
    (s : SchedState) (t : Task) (hrun : tid ∉ s.runningTasks)
    (hf : findTask s tid = some t) (hc1 : env.commit1Fails = false) :
    (run_task_now env tid trig s).1.logs.length = s.logs.length + 1 := by
  obtain ⟨now, exec, c1, c2, c3, c4, jnr⟩ := env
  obtain ⟨ts, lg, rs, js⟩ := s
  simp only at hc1
  subst hc1
  simp only [findTask_mk] at hf ⊢
  cases c2 <;> rcases exec with e | r <;> cases c3 <;>
    simp [run_task_now, hrun, hf, withTask, dropRunning]

/-- The firing callback never leaves the id in the running set when it was
not there to begin with. -/
theorem run_task_internal_running (env : RunEnv) (tid : Nat) (s : SchedState)
    (hrun : tid ∉ s.runningTasks) :
    tid ∉ (run_task_internal env tid s).1.runningTasks := by
  obtain ⟨now, exec, c1, c2, c3, c4, jnr⟩ := env
  obtain ⟨ts, lg, rs, js⟩ := s
  simp only [findTask_mk] at hrun ⊢
  rcases hf : ts.find? (fun t => t.id == tid) with _ | t
  · simp [run_task_internal, run_task_body, hrun, hf, dropRunning,
      runningDiscard, List.mem_filter]
  · cases ht : t.isActive <;> cases c1 <;> cases c2 <;>
      rcases exec with e | r <;> rcases jnr with _ | nrt <;> cases c3 <;>
      simp [run_task_internal, run_task_body, hrun, hf, ht, withTask,
        dropRunning, runningDiscard, List.mem_filter, find_updateFirst]

/-- The manual trigger never leaves the id in the running set when it was
not there to begin with. -/
theorem run_task_now_running (env : RunEnv) (tid : Nat) (trig : String)
    (s : SchedState) (hrun : tid ∉ s.runningTasks) :
    tid ∉ (run_task_now env tid trig s).1.runningTasks := by
  obtain ⟨now, exec, c1, c2, c3, c4, jnr⟩ := env
  obtain ⟨ts, lg, rs, js⟩ := s
  simp only [findTask_mk] at hrun ⊢
  rcases hf : ts.find? (fun t => t.id == tid) with _ | t
  · simp only [run_task_now, findTask_mk, hf]
    exact hrun
  · cases c1 <;> cases c2 <;> rcases exec with e | r <;> cases c3 <;>
      simp [run_task_now, hrun, hf, withTask, dropRunning, runningDiscard,
        List.mem_filter]

/-- The task table is untouched by add_task except possibly for refreshing
next_run_at on the registered task's row. -/
theorem add_task_tasks_shape (aenv : AddEnv) (s : SchedState) (task : Task) :
    (add_task aenv s task).1.tasks = s.tasks ∨
    (add_task aenv s task).1.tasks
      = updateFirst s.tasks task.id (setNextRun aenv.jobNextRunTime) := by
  obtain ⟨jnr, cf⟩ := aenv
  obtain ⟨ts, lg, rs, js⟩ := s
  cases ha : task.isActive <;> cases cf <;>
    by_cases h5 : (py_split task.cronExpression).length = 5 <;>
    cases hall : (py_split task.cronExpression).all valid_cron_field <;>
    first
    | (left; simp [add_task, ha, h5, hall, withTask]; done)
    | (right; simp [add_task, ha, h5, hall, withTask]; done)

/-- C4 (amended): for an execution that actually starts, the
finally-equivalent cleanup always removes task_id from the running set on
both paths; the firing callback additionally guarantees, through its except
handler, that the task row never ends with is_running=true — but
run_task_now, which has no except handler, does not give that guarantee
(see its counterexample). -/
theorem c4_amended_cleanup (env : RunEnv) (tid : Nat) (trig : String)
    (s : SchedState) (hrun : tid ∉ s.runningTasks)
    (hinit : ∀ t ∈ s.tasks, t.id = tid → t.isRunning = false) :
    tid ∉ (run_task_internal env tid s).1.runningTasks ∧
    tid ∉ (run_task_now env tid trig s).1.runningTasks ∧
    ∀ t ∈ (run_task_internal env tid s).1.tasks,
      t.id = tid → t.isRunning = false := by
  refine ⟨run_task_internal_running env tid s hrun,
    run_task_now_running env tid trig s hrun, ?_⟩
  rcases run_task_internal_tasks_shape env tid s hrun with h | ⟨F, hEq, hF⟩
  · rw [h]; exact hinit
  · rw [hEq]
    refine updateFirst_forall s.tasks tid F hinit ?_
    intro u _ _
    exact (hF u).2.1

/-- Witness for C4 (amended) on the concrete demo state. -/
theorem c4_amended_cleanup_witness :
    1 ∉ (run_task_internal okEnv 1 demoState).1.runningTasks ∧
    1 ∉ (run_task_now okEnv 1 "manual" demoState).1.runningTasks :=
  ⟨(c4_amended_cleanup okEnv 1 "manual" demoState (by decide) (by decide)).1,
   (c4_amended_cleanup okEnv 1 "manual" demoState (by decide) (by decide)).2.1⟩

/-- C5: every scheduler operation (both run paths, add_task, remove_task)
preserves the invariant success_count + failure_count ≤ run_count, and a
completed execution — scheduled or manual — raises run_count by exactly one
and the sum of the outcome counters by exactly one, which gives
success_count + failure_count = N and run_count ≥ N after N completed
executions. -/
theorem c5_stats_invariant (env : RunEnv) (aenv : AddEnv) (tid : Nat)
    (trig : String) (s : SchedState) (task : Task) (hs : statsOk s) :
    statsOk (run_task_internal env tid s).1 ∧
    statsOk (run_task_now env tid trig s).1 ∧
    statsOk (add_task aenv s task).1 ∧
    statsOk (update_task aenv s task).1 ∧
    statsOk (remove_task s tid) ∧
    (∀ t, tid ∉ s.runningTasks → findTask s tid = some t →
      t.isActive = true → env.commit1Fails = false →
      env.commit2Fails = false → env.commit3Fails = false →
      ∀ r, env.execOutcome = .ok r →
      (findTask (run_task_internal env tid s).1 tid).map
          (fun u => (u.runCount, u.successCount + u.failureCount))
        = some (t.runCount + 1, t.successCount + t.failureCount + 1) ∧
      (findTask (run_task_now env tid trig s).1 tid).map
          (fun u => (u.runCount, u.successCount + u.failureCount))
        = some (t.runCount + 1, t.successCount + t.failureCount + 1)) := by
  have hInv : ∀ (F : Task → Task),
      (∀ u, (F u).runCount = u.runCount + 1 ∧
        u.successCount + u.failureCount
          ≤ (F u).successCount + (F u).failureCount ∧
        (F u).successCount + (F u).failureCount
          ≤ u.successCount + u.failureCount + 1) →
      ∀ u, statsInv u → statsInv (F u) := by
    intro F hF u hu
    have h1 := (hF u).1
    have h2 := (hF u).2.1
    have h3 := (hF u).2.2
    unfold statsInv at hu ⊢
    omega
  by_cases hrun : tid ∈ s.runningTasks
  · refine ⟨?_, ?_, ?_, ?_, hs, ?_⟩
    · have h : run_task_internal env tid s = (s, false) := by
        simp [run_task_internal, hrun]
      rw [h]
      exact hs
    · rcases hf : findTask s tid with _ | t
      · simp only [run_task_now, hf]
        exact hs
      · simp only [run_task_now, hf, if_pos hrun]
        exact hs
    · rcases add_task_tasks_shape aenv s task with h | h
      · intro u hu; rw [h] at hu; exact hs u hu
      · intro u hu
        rw [h] at hu
        refine updateFirst_forall s.tasks task.id _ hs ?_ u hu
        intro v hv
        unfold statsInv at hv ⊢
        simpa using hv
    · rcases add_task_tasks_shape aenv (remove_task s task.id) task with h | h
      · intro u hu
        simp only [update_task] at hu
        rw [h] at hu
        exact hs u hu
      · intro u hu
        simp only [update_task] at hu
        rw [h] at hu
        refine updateFirst_forall s.tasks task.id _ hs ?_ u hu
        intro v hv
        unfold statsInv at hv ⊢
        simpa using hv
    · intro t h; exact absurd hrun h
  · refine ⟨?_, ?_, ?_, ?_, hs, ?_⟩
    · rcases run_task_internal_tasks_shape env tid s hrun with h | ⟨F, hEq, hF⟩
      · intro u hu; rw [h] at hu; exact hs u hu
      · intro u hu
        rw [hEq] at hu
        exact updateFirst_forall s.tasks tid F hs
          (hInv F (fun v => ⟨(hF v).2.2.1, (hF v).2.2.2⟩)) u hu
    · rcases run_task_now_tasks_shape env tid trig s hrun with h | ⟨F, hEq, hF⟩
      · intro u hu; rw [h] at hu; exact hs u hu
      · intro u hu
        rw [hEq] at hu
        exact updateFirst_forall s.tasks tid F hs
          (hInv F (fun v => (hF v).2)) u hu
    · rcases add_task_tasks_shape aenv s task with h | h
      · intro u hu; rw [h] at hu; exact hs u hu
      · intro u hu
        rw [h] at hu
        refine updateFirst_forall s.tasks task.id _ hs ?_ u hu
        intro v hv
        unfold statsInv at hv ⊢
        simpa using hv
    · rcases add_task_tasks_shape aenv (remove_task s task.id) task with h | h
      · intro u hu
        simp only [update_task] at hu
        rw [h] at hu
        exact hs u hu
      · intro u hu
        simp only [update_task] at hu
        rw [h] at hu
        refine updateFirst_forall s.tasks task.id _ hs ?_ u hu
        intro v hv
        unfold statsInv at hv ⊢
        simpa using hv
    · intro t _ hf ht hc1 hc2 hc3 r hex
      exact ⟨run_task_internal_completed env tid s t hrun hf ht hc1 hc2 hc3 r hex,
        run_task_now_completed env tid trig s t hrun hf hc1 hc2 hc3 r hex⟩

/-- Witness for C5 on the concrete demo state. -/
theorem c5_stats_invariant_witness :
    statsOk (run_task_internal okEnv 1 demoState).1 ∧
    (findTask (run_task_now okEnv 1 "manual" demoState).1 1).map
        (fun u => (u.runCount, u.successCount + u.failureCount))
      = some (1, 1) := by
  have hs : statsOk demoState := by
    intro t ht
    simp only [demoState, List.mem_singleton] at ht
    subst ht
    unfold statsInv
    simp [demoTask]
  have h := c5_stats_invariant okEnv ⟨none, false⟩ 1 "manual" demoState
    demoTask hs
  refine ⟨h.1, ?_⟩
  have h2 := (h.2.2.2.2.2 demoTask (by decide) (by decide) rfl rfl rfl rfl
    okResult rfl).2
  simpa [demoTask] using h2

/-- C9 (amended): run_task_now matches the firing callback when the task is
missing from the store — both abort without executing, run_task_now
returning None — but unlike the firing callback it performs no is_active
check: on a deactivated task the firing callback aborts quietly (no log, no
task change, no raise) while run_task_now executes it, appending a log
row. -/
theorem c9_amended_trigger_paths (env : RunEnv) (tid : Nat) (trig : String)
    (s : SchedState) :
    (findTask s tid = none → run_task_now env tid trig s = (s, .returned none)) ∧
    (∀ t, tid ∉ s.runningTasks → findTask s tid = some t →
      t.isActive = false →
      (run_task_internal env tid s).1.tasks = s.tasks ∧
      (run_task_internal env tid s).1.logs = s.logs ∧
      (run_task_internal env tid s).2 = false ∧
      (env.commit1Fails = false →
        (run_task_now env tid trig s).1.logs.length = s.logs.length + 1)) := by
  constructor
  · intro h
    simp [run_task_now, h]
  · intro t hrun hf ht
    refine ⟨?_, ?_, ?_,
      fun hc1 => run_task_now_logs_length env tid trig s t hrun hf hc1⟩
    all_goals (
      obtain ⟨ts, lg, rs, js⟩ := s
      simp only [findTask_mk] at hf hrun
      simp [run_task_internal, run_task_body, hrun, hf, ht, dropRunning])

/-- Witness for C9 (amended) on the concrete deactivated task. -/
theorem c9_amended_trigger_paths_witness :
    (run_task_internal okEnv 1 inactiveState).1.logs = inactiveState.logs ∧
    (run_task_now okEnv 1 "manual" inactiveState).1.logs.length
      = inactiveState.logs.length + 1 :=
  ⟨((c9_amended_trigger_paths okEnv 1 "manual" inactiveState).2 inactiveTask
      (by decide) (by decide) (by decide)).2.1,
   ((c9_amended_trigger_paths okEnv 1 "manual" inactiveState).2 inactiveTask
      (by decide) (by decide) (by decide)).2.2.2 rfl⟩

end TaskSched
